import Mathlib

/-!
Verification development for the intent-routing and conversation-state
subsystem of the round-ai-slack-bot repository.  The Python sources under
app/ are shallowly embedded below: pure functions become Lean functions,
stateful code threads an explicit cache state, fallible code returns
Except, and the asyncio lock of the in-memory cache is made explicit for
the termination claim about increment.
-/

set_option allowUnsafeReducibility true
attribute [local semireducible] Rat.mul Rat.inv Rat.add Rat.sub

deriving instance DecidableEq for Except

namespace Bot

/-- app/ai/intent_classifier/base_classifier.py: class Intent(str, Enum). -/
inductive Intent where
  | greeting
  | sql_query
  | show_sql
  | export_csv
  | unknown
deriving DecidableEq, Repr

/-- The string value of each Intent member (Intent is a str-valued enum). -/
def Intent.value : Intent → String
  | .greeting => "greeting"
  | .sql_query => "sql_query"
  | .show_sql => "show_sql"
  | .export_csv => "export_csv"
  | .unknown => "unknown"

/-- Python Intent(name): looks a member up by value, ValueError when absent. -/
def intentOfString (s : String) : Option Intent :=
  if s = "greeting" then some .greeting
  else if s = "sql_query" then some .sql_query
  else if s = "show_sql" then some .show_sql
  else if s = "export_csv" then some .export_csv
  else if s = "unknown" then some .unknown
  else none

/-- The metadata dict attached to an IntentResult; one constructor per dict
shape the classifiers build (regex result, semantic result, low-confidence
fallback built by BaseClassifier.classify). -/
inductive ClassifyMeta where
  | regexMeta (matchedPattern : String)
  | semanticMeta (bestExample : String) (similarityMethod : String)
  | fallbackMeta (originalIntent : Intent) (originalConfidence : ℚ)
      (fallbackReason : String)
deriving DecidableEq, Repr

/-- app/ai/intent_classifier/base_classifier.py: dataclass IntentResult.
Confidences are embedded as exact rationals. -/
structure IntentResult where
  intent : Intent
  confidence : ℚ
  metadata : ClassifyMeta
deriving DecidableEq, Repr

/-- Python exceptions that the embedded code can raise. -/
inductive PyExn where
  | keyError (key : String)
  | typeError (msg : String)
  | valueError (msg : String)
  | ioError (msg : String)
  | fileNotFound (msg : String)
  | zeroDivision
  | generic (msg : String)
deriving DecidableEq, Repr

/-- BaseClassifier.classify: run the subclass's internal classification and
replace a result below the confidence threshold by the fallback intent at
confidence 0.1, recording the original guess in the metadata. -/
def baseClassify (threshold : ℚ) (fallback : Intent)
    (internal : String → Except PyExn IntentResult) (text : String) :
    Except PyExn IntentResult := do
  let result ← internal text
  if result.confidence < threshold then
    pure { intent := fallback, confidence := 1/10,
           metadata := .fallbackMeta result.intent result.confidence
             "Low confidence" }
  else
    pure result

/-- BaseClassifier.is_confident. -/
def isConfident (threshold : ℚ) (result : IntentResult) : Bool :=
  result.confidence ≥ threshold

/-! ### Python string primitives

Executable embeddings of str.lower, str.strip, str.split, str.capitalize
and str.endswith over the character list of a string. -/

/-- Python str.lower(). -/
def pyLower (s : String) : String := String.mk (s.data.map Char.toLower)

/-- Python str.upper() of the first character, as capitalize uses it. -/
def pyStrip (s : String) : String :=
  String.mk
    (((s.data.dropWhile Char.isWhitespace).reverse.dropWhile
      Char.isWhitespace).reverse)

/-- Helper of pyWords: split a character list at whitespace, accumulating
the current word reversed. -/
def splitWsAux : List Char → List Char → List String
  | [], acc => if acc.isEmpty then [] else [String.mk acc.reverse]
  | ch :: rest, acc =>
    if ch.isWhitespace then
      if acc.isEmpty then splitWsAux rest []
      else String.mk acc.reverse :: splitWsAux rest []
    else splitWsAux rest (ch :: acc)

/-- Python str.split() with no separator: whitespace runs separate words
and empty strings never appear. -/
def pyWords (s : String) : List String := splitWsAux s.data []

/-- Python str.capitalize(): first character upper, rest lower. -/
def pyCapitalize (s : String) : String :=
  match s.data with
  | [] => ""
  | ch :: rest => String.mk (Char.toUpper ch :: rest.map Char.toLower)

/-- Python str.endswith. -/
def strEndsWith (s suffix : String) : Bool :=
  suffix.data.isSuffixOf s.data

/-! ## Regex classifier (app/ai/intent_classifier/regex/regex_classifier.py)

A compiled pattern is embedded as a search function: given the normalized
text it returns the substring matched by re.search (group(0)), or none
when the pattern does not match. -/

/-- A compiled regex pattern, as its search behaviour on a text. -/
def RegexPat : Type := String → Option String

/-- One step of the loop over compiled_patterns in
RegexClassifier._classify_internal: on a match, confidence is
min(0.9, match_length / text_length * 1.2), boosted to 0.95 when the
stripped match equals the whole normalized text, and the running best is
replaced only on a strictly greater confidence (ties keep the first
pattern encountered).  Dividing by a zero text length raises
ZeroDivisionError exactly as in Python. -/
def regexScanStep (text : String) (acc : Option String × ℚ)
    (p : String × RegexPat) : Except PyExn (Option String × ℚ) :=
  match p.2 text with
  | none => pure acc
  | some m =>
    if text.length = 0 then
      .error .zeroDivision
    else
      let conf : ℚ := min (9/10) ((m.length : ℚ) / (text.length : ℚ) * (12/10))
      let conf : ℚ := if pyStrip m = text then 95/100 else conf
      pure (if conf > acc.2 then (some p.1, conf) else acc)

/-- The full loop of RegexClassifier._classify_internal over the pattern
map, starting from best_match = None, best_confidence = 0.0. -/
def regexScan (text : String) (pats : List (String × RegexPat)) :
    Except PyExn (Option String × ℚ) :=
  pats.foldlM (regexScanStep text) (none, (0 : ℚ))

/-- RegexClassifier._classify_internal: normalize the text
(text.strip().lower()), scan all patterns, then map the best pattern name
to an Intent (unknown names fall back to SQL_QUERY, keeping the computed
confidence); with no match at all the result is SQL_QUERY at confidence
0.1.  The raw pattern string stored in the metadata is looked up in the
raw pattern map. -/
def regexClassifyInternal (pats : List (String × RegexPat))
    (rawPatterns : List (String × String)) (rawText : String) :
    Except PyExn IntentResult := do
  let text := pyLower (pyStrip rawText)
  let (bestMatch, bestConfidence) ← regexScan text pats
  match bestMatch with
  | some name =>
    let intent := (intentOfString name).getD Intent.sql_query
    pure { intent := intent, confidence := bestConfidence,
           metadata := .regexMeta (((rawPatterns.find? (·.1 = name)).map
             Prod.snd).getD "") }
  | none =>
    pure { intent := Intent.sql_query, confidence := 1/10,
           metadata := .regexMeta (((rawPatterns.find? (·.1 = "")).map
             Prod.snd).getD "") }

/-- RegexClassifier: constructed with a confidence threshold (default 0.8)
and a patterns file; its __init__ does not forward any fallback intent,
so BaseClassifier leaves fallback_intent at its default Intent.UNKNOWN. -/
structure RegexClassifier where
  confidenceThreshold : ℚ := 8/10
  patterns : List (String × String)
  compiledPatterns : List (String × RegexPat)

/-- The fallback intent of every RegexClassifier: BaseClassifier's default,
Intent.UNKNOWN, since RegexClassifier.__init__ calls
super().__init__(confidence_threshold) without a fallback argument. -/
def RegexClassifier.fallbackIntent (_ : RegexClassifier) : Intent :=
  Intent.unknown

/-- Public classify of the regex classifier (BaseClassifier.classify over
RegexClassifier._classify_internal). -/
def RegexClassifier.classify (c : RegexClassifier) (text : String) :
    Except PyExn IntentResult :=
  baseClassify c.confidenceThreshold c.fallbackIntent
    (regexClassifyInternal c.compiledPatterns c.patterns) text

/-! ### Literal patterns

The configured pattern file intent_patterns.json is data shipped next to
the classifier and is not among the sources; per the spec the classifier
loads a static mapping of intent name to pattern and an input exactly
equal to a configured pattern matches it wholly.  A literal pattern
searched case-insensitively matches the leftmost occurrence of the
pattern text and group(0) is that occurrence. -/

/-- Substring occurrence test on character lists. -/
def hasSubstr (needle : List Char) : List Char → Bool
  | [] => needle.isEmpty
  | c :: rest => needle.isPrefixOf (c :: rest) || hasSubstr needle rest

/-- A literal pattern compiled with re.IGNORECASE: it matches the
normalized (already lowercased) text iff its lowercased text occurs in
it, and the matched substring is then that literal text. -/
def litPat (pat : String) : RegexPat := fun text =>
  if hasSubstr (pyLower pat).data text.data then some (pyLower pat) else none

/-- Modelled from the spec: the contents of intent_patterns.json are not
under src/; the spec describes a static mapping from intent name to a
curated pattern for greeting, show-sql and export-csv requests, with
unmatched text falling through to the query path. -/
def specPatterns : List (String × String) :=
  [("greeting", "hello"),
   ("show_sql", "show me the sql"),
   ("export_csv", "export csv")]

/-- The spec-modelled compiled pattern map: every configured pattern is a
literal pattern. -/
def specCompiled : List (String × RegexPat) :=
  specPatterns.map (fun p => (p.1, litPat p.2))

/-- The regex classifier as NL2SQLService constructs it: threshold 0.8,
spec-modelled pattern file. -/
def serviceRegexClassifier : RegexClassifier :=
  { confidenceThreshold := 8/10, patterns := specPatterns,
    compiledPatterns := specCompiled }

/-- The per-pattern confidence of RegexClassifier._classify_internal for a
match m of a pattern on the normalized text. -/
def patConf (text m : String) : ℚ :=
  if pyStrip m = text then 95/100
  else min (9/10) ((m.length : ℚ) / (text.length : ℚ) * (12/10))

/-- Reference selection rule, written from the spec's words: the
highest-confidence match across all patterns wins and ties keep the first
pattern encountered. -/
def chooseBest : List (String × ℚ) → Option (String × ℚ)
  | [] => none
  | x :: rest =>
    match chooseBest rest with
    | none => some x
    | some y => if y.2 > x.2 then some y else some x

/-- The (pattern name, per-pattern confidence) list of all patterns that
match the normalized text. -/
def matchConfs (text : String) (pats : List (String × RegexPat)) :
    List (String × ℚ) :=
  pats.filterMap (fun p => (p.2 text).map (fun m => (p.1, patConf text m)))

/-! ## Semantic classifier
(app/ai/intent_classifier/semantic/semantic_classifier.py)

The sentence-transformer backend is external; it is embedded as a total
similarity oracle rawSim giving the raw cosine similarity of the input
text against an example (the code then clamps it at 0 with np.maximum).
The per-intent embeddings cache is embedded as the list of intent names
whose embeddings were precomputed. -/

/-- Python text.lower().split(): whitespace-separated words, empties
dropped, as a set. -/
def wordSet (s : String) : Finset String :=
  (pyWords (pyLower s)).toFinset

/-- SemanticClassifier._simple_similarity: token-set Jaccard similarity. -/
def simpleSimilarity (t1 t2 : String) : ℚ :=
  let words1 := wordSet t1
  let words2 := wordSet t2
  if words1 = ∅ ∨ words2 = ∅ then 0
  else if words1 ∪ words2 = ∅ then 0
  else ((words1 ∩ words2).card : ℚ) / ((words1 ∪ words2).card : ℚ)

/-- np.argmax over (intent, example, similarity) triples: the first triple
attaining the maximal similarity. -/
def argmaxFirst : List (String × String × ℚ) → Option (String × String × ℚ)
  | [] => none
  | x :: rest =>
    match argmaxFirst rest with
    | none => some x
    | some y => if y.2.2 > x.2.2 then some y else some x

structure SemanticClassifier where
  confidenceThreshold : ℚ := 6/10
  examples : List (String × List String)
  useEmbeddings : Bool
  cachedIntents : List String
  rawSim : String → String → ℚ

/-- The fallback intent of every SemanticClassifier: BaseClassifier's
default Intent.UNKNOWN, since SemanticClassifier.__init__ accepts only
confidence_threshold and examples_file and calls
super().__init__(confidence_threshold). -/
def SemanticClassifier.fallbackIntent (_ : SemanticClassifier) : Intent :=
  Intent.unknown

/-- The (intent name, example) pairs gathered by the embeddings branch of
_classify_internal: intents with a nonempty example list that are present
in the embeddings cache, in file order. -/
def embeddingPairs (c : SemanticClassifier) : List (String × String) :=
  (c.examples.filter
    (fun ie => ¬ie.2.isEmpty ∧ ie.1 ∈ c.cachedIntents)).flatMap
    (fun ie => ie.2.map (fun ex => (ie.1, ex)))

/-- The inner double loop of the simple-similarity branch: track the best
(intent, example, similarity) seen so far, replacing only on a strictly
greater similarity. -/
def simpleScan (c : SemanticClassifier) (text : String) :
    Option String × String × ℚ :=
  (c.examples.flatMap (fun ie => ie.2.map (fun ex => (ie.1, ex)))).foldl
    (fun acc p =>
      let sim := simpleSimilarity text p.2
      if sim > acc.2.2 then (some p.1, p.2, sim) else acc)
    (none, "", (0 : ℚ))

/-- SemanticClassifier._classify_internal. -/
def semanticClassifyInternal (c : SemanticClassifier) (rawText : String) :
    Except PyExn IntentResult :=
  let text := pyStrip rawText
  let method := if c.useEmbeddings then "embeddings" else "simple"
  let (bestIntentName, bestExample, bestConfidence) :=
    if c.useEmbeddings then
      let sims := (embeddingPairs c).map
        (fun p => (p.1, p.2, max 0 (c.rawSim text p.2)))
      match argmaxFirst sims with
      | some b => (some b.1, b.2.1, b.2.2)
      | none => (none, "", (0 : ℚ))
    else
      simpleScan c text
  if c.useEmbeddings ∧ (embeddingPairs c).isEmpty then
    .ok { intent := Intent.sql_query, confidence := 1/10,
          metadata := .semanticMeta "" "embeddings" }
  else
    let truthy : Bool := match bestIntentName with
      | some name => name != ""
      | none => false
    if truthy then
      let name := bestIntentName.getD ""
      .ok { intent := (intentOfString name).getD Intent.sql_query,
            confidence := bestConfidence,
            metadata := .semanticMeta bestExample method }
    else
      .ok { intent := Intent.sql_query, confidence := 1/10,
            metadata := .semanticMeta bestExample method }

/-- Public classify of the semantic classifier. -/
def SemanticClassifier.classify (c : SemanticClassifier) (text : String) :
    Except PyExn IntentResult :=
  baseClassify c.confidenceThreshold c.fallbackIntent
    (fun t => semanticClassifyInternal c t) text

/-- Modelled from the spec: the contents of intent_examples.json are not
under src/; the spec describes curated example utterances per intent. -/
def specExamples : List (String × List String) :=
  [("greeting", ["hello there", "hi bot"]),
   ("sql_query", ["show top apps by revenue", "how many installs last week"]),
   ("show_sql", ["show me the sql you used"]),
   ("export_csv", ["export the result as csv"])]

/-- A semantic classifier running in the non-embedding fallback mode with
the spec-modelled examples, at the default threshold 0.6. -/
def simpleSemanticClassifier : SemanticClassifier :=
  { confidenceThreshold := 6/10, examples := specExamples,
    useEmbeddings := false, cachedIntents := [], rawSim := fun _ _ => 0 }

/-! ## In-memory cache (app/cache/memory_cache.py)

Values stored by the embedded code paths: a message-history list, a
session-stats record, a sql string, an execution-result row list, and the
integers written by increment.  Timestamps are naturals; an entry keeps
value, created_at and the optional expires_at exactly as the Python dict
does.  The cache's single asyncio.Lock is made explicit as a Boolean
argument: acquiring it while it is already held blocks the (single)
coroutine forever, which the ARes type records. -/

/-- A row of a query result: a column-keyed record. -/
abbrev Row : Type := List (String × String)

/-- Message of the chat history (history_manager.add_message): the random
uuid id field and the diagnostic metadata dict are never read by any
embedded code path and are omitted. -/
structure Message where
  role : String
  content : String
  timestamp : Nat
deriving DecidableEq, Repr

/-- Session stats record; created_at and session_id are optional because
_update_session_stats starts from an empty dict when the stats record is
missing. -/
structure SessionStats where
  sessionId : Option String
  createdAt : Option Nat
  messageCount : Nat
  lastActivity : Nat
deriving DecidableEq, Repr

/-- A value stored in the shared cache. -/
inductive CVal where
  | vhist : List Message → CVal
  | vstats : SessionStats → CVal
  | vstr : String → CVal
  | vrows : List Row → CVal
  | vint : Int → CVal
deriving DecidableEq, Repr

/-- A cache item: {"value": ..., "created_at": ..., "expires_at": ...}. -/
structure CEntry where
  value : CVal
  createdAt : Nat
  expiresAt : Option Nat
deriving DecidableEq, Repr

/-- MemoryCache._cache. -/
def Cache : Type := String → Option CEntry

def emptyCache : Cache := fun _ => none

/-- settings.CACHE_TTL default. -/
def CACHE_TTL : Nat := 3600

/-- settings.CHAT_HISTORY_TTL default. -/
def CHAT_HISTORY_TTL : Nat := 86400

/-- MemoryCache._is_expired. -/
def isExpiredEntry (now : Nat) (e : CEntry) : Bool :=
  match e.expiresAt with
  | none => false
  | some t => now > t

/-- MemoryCache._cleanup_expired, as its pointwise effect on the store. -/
def cleanupExpired (now : Nat) (c : Cache) : Cache := fun k =>
  match c k with
  | some e => if isExpiredEntry now e then none else some e
  | none => none

/-- Body of MemoryCache.get (inside the lock): cleanup, then look the key
up and drop it if expired. -/
def cacheGet (now : Nat) (key : String) (c : Cache) : Option CVal × Cache :=
  let c := cleanupExpired now c
  match c key with
  | none => (none, c)
  | some e =>
    if isExpiredEntry now e then (none, fun k => if k = key then none else c k)
    else (some e.value, c)

/-- Body of MemoryCache.set (inside the lock): a None ttl defaults to
settings.CACHE_TTL and a positive ttl sets expires_at. -/
def cacheSet (now : Nat) (key : String) (value : CVal) (ttl : Option Nat)
    (c : Cache) : Cache :=
  let ttl := ttl.getD CACHE_TTL
  let e : CEntry := { value := value, createdAt := now,
                      expiresAt := if ttl > 0 then some (now + ttl) else none }
  fun k => if k = key then some e else c k

/-- Body of MemoryCache.delete (inside the lock). -/
def cacheDelete (key : String) (c : Cache) : Bool × Cache :=
  match c key with
  | some _ => (true, fun k => if k = key then none else c k)
  | none => (false, c)

/-- Outcome of a coroutine step: it finishes with a value, or blocks
forever on the non-reentrant lock. -/
inductive ARes (α : Type) where
  | done : α → ARes α
  | blocked
deriving DecidableEq, Repr

/-- MemoryCache.get with the asyncio.Lock explicit: the method acquires
the cache lock; if the caller already holds it the coroutine blocks. -/
def lockedGet (held : Bool) (now : Nat) (key : String) (c : Cache) :
    ARes (Option CVal × Cache) :=
  if held then .blocked else .done (cacheGet now key c)

/-- MemoryCache.set with the asyncio.Lock explicit. -/
def lockedSet (held : Bool) (now : Nat) (key : String) (value : CVal)
    (ttl : Option Nat) (c : Cache) : ARes (Bool × Cache) :=
  if held then .blocked else .done (true, cacheSet now key value ttl c)

/-- Python int(value) on a cached value: ints pass through, numeric
strings parse, anything else raises ValueError/TypeError (handled by the
caller). -/
def pyIntOfCVal : CVal → Option Int
  | .vint i => some i
  | .vstr s => s.toInt?
  | _ => none

/-- MemoryCache.increment: acquires the cache lock, then awaits self.get
and self.set on the same cache while still holding it. -/
def increment (held : Bool) (now : Nat) (key : String) (amount : Int)
    (c : Cache) : ARes (Int × Cache) :=
  if held then .blocked
  else
    match lockedGet true now key c with
    | .blocked => .blocked
    | .done (currentValue, c₁) =>
      let newValue : Int :=
        match currentValue with
        | none => amount
        | some v =>
          match pyIntOfCVal v with
          | some i => i + amount
          | none => amount
      match lockedSet true now key (.vint newValue) none c₁ with
      | .blocked => .blocked
      | .done (_, c₂) => .done (newValue, c₂)

/-! ## Chat history manager
(app/ai/history_manager/history_manager.py) -/

def histKey (sid : String) : String := "chat_history:" ++ sid

def statsKey (sid : String) : String := "chat_stats:" ++ sid

/-- Python l[-k:] as used after the length check (for k = 0 the slice
l[-0:] is l[0:], the whole list). -/
def pySliceLast (k : Nat) (l : List α) : List α :=
  if k = 0 then l else l.drop (l.length - k)

/-- ChatHistoryManager._update_session_stats. -/
def updateSessionStats (now : Nat) (sid : String) (c : Cache) : Cache :=
  let (statsOpt, c) := cacheGet now (statsKey sid) c
  let stats := match statsOpt with
    | some (.vstats s) => s
    | _ => { sessionId := none, createdAt := none, messageCount := 0,
             lastActivity := 0 : SessionStats }
  let stats := { stats with lastActivity := now,
                            messageCount := stats.messageCount + 1 }
  cacheSet now (statsKey sid) (.vstats stats) none c

/-- ChatHistoryManager.add_message for a manager whose __init__ received
max_cnt = maxTurns, so self.max_cnt = 2 * maxTurns: read the current
history (or []), append, keep only the most recent self.max_cnt entries,
write the list back, update the stats.  The embedded store never fails,
so the try block returns True. -/
def addMessage (maxTurns : Nat) (now : Nat) (sid role content : String)
    (c : Cache) : Bool × Cache :=
  let maxCnt := maxTurns * 2
  let message : Message := { role := role, content := content,
                             timestamp := now }
  let (histOpt, c) := cacheGet now (histKey sid) c
  let currentHistory := match histOpt with
    | some (.vhist l) => l
    | _ => []
  let currentHistory := currentHistory ++ [message]
  let currentHistory :=
    if currentHistory.length > maxCnt then pySliceLast maxCnt currentHistory
    else currentHistory
  let c := cacheSet now (histKey sid) (.vhist currentHistory) none c
  let c := updateSessionStats now sid c
  (true, c)

/-- ChatHistoryManager.get_history. -/
def getHistory (now : Nat) (sid : String) (limit : Option Nat)
    (includeSystem : Bool) (c : Cache) : List Message × Cache :=
  let (histOpt, c) := cacheGet now (histKey sid) c
  let history := match histOpt with
    | some (.vhist l) => l
    | _ => []
  let history :=
    if includeSystem then history else history.filter (·.role ≠ "system")
  let history := match limit with
    | some l => if l ≠ 0 then pySliceLast l history else history
    | none => history
  (history, c)

/-- ChatHistoryManager.get_conversation_context. -/
def getConversationContext (now : Nat) (sid : String) (limit : Nat)
    (c : Cache) : String × Cache :=
  let (history, c) := getHistory now sid (some limit) false c
  if history.isEmpty then ("", c)
  else
    (String.intercalate "\n"
      (history.map (fun m => pyCapitalize m.role ++ ": " ++ m.content)), c)

/-- ChatHistoryManager.create_session; the fresh uuid is supplied by the
caller's environment. -/
def createSession (now : Nat) (freshSid : String) (c : Cache) :
    String × Cache :=
  let stats : SessionStats :=
    { sessionId := some freshSid, createdAt := some now,
      messageCount := 0, lastActivity := now }
  let c := cacheSet now (statsKey freshSid) (.vstats stats)
    (some CHAT_HISTORY_TTL) c
  (freshSid, c)

/-! ## Classifier factory (app/ai/intent_classifier/factory.py)

Keyword-argument passing is embedded explicitly because
get_semantic_classifier calls SemanticClassifier with a fallback_intent
keyword: a call raises TypeError when a keyword is not among the callee's
parameter names.  A cached instance is an identity (a Nat drawn from a
counter); two getter calls return the same shared instance iff they
return the same identity. -/

inductive KwVal where
  | kq : ℚ → KwVal
  | kint : Intent → KwVal
  | kstr : String → KwVal
deriving DecidableEq, Repr

/-- Parameter names of RegexClassifier.__init__ (besides self). -/
def regexInitParamNames : List String :=
  ["confidence_threshold", "patterns_file"]

/-- Parameter names of SemanticClassifier.__init__ (besides self). -/
def semanticInitParamNames : List String :=
  ["confidence_threshold", "examples_file"]

/-- Python call semantics for keyword arguments: an unexpected keyword
raises TypeError before the constructor body runs. -/
def callAccepts (params : List String) (kwargs : List (String × KwVal)) :
    Except PyExn Unit :=
  match kwargs.find? (fun kv => ¬ params.contains kv.1) with
  | some kv =>
    .error (.typeError ("unexpected keyword argument " ++ kv.1))
  | none => .ok ()

/-- The f-string cache keys of IntentClassifierFactory: regex keys carry
only the threshold, semantic keys carry threshold and fallback value. -/
inductive FKey where
  | regexKey : ℚ → FKey
  | semanticKey : ℚ → Intent → FKey
deriving DecidableEq, Repr

/-- IntentClassifierFactory._instances plus an identity counter for the
constructed classifier objects. -/
structure FactoryState where
  instances : List (FKey × Nat)
  nextId : Nat
deriving DecidableEq, Repr

def FactoryState.initial : FactoryState := { instances := [], nextId := 0 }

/-- IntentClassifierFactory.get_regex_classifier: resolve the config
(defaults 0.8 / UNKNOWN), cache key regex_{threshold}, construct on a
miss passing only confidence_threshold. -/
def getRegexClassifier (st : FactoryState) (confidenceThreshold : Option ℚ)
    (_fallbackIntent : Option Intent) : Except PyExn Nat × FactoryState :=
  let thr := confidenceThreshold.getD (8/10)
  let key := FKey.regexKey thr
  match st.instances.find? (·.1 = key) with
  | some e => (.ok e.2, st)
  | none =>
    match callAccepts regexInitParamNames
        [("confidence_threshold", .kq thr)] with
    | .error e => (.error e, st)
    | .ok _ =>
      (.ok st.nextId,
       { instances := st.instances ++ [(key, st.nextId)],
         nextId := st.nextId + 1 })

/-- IntentClassifierFactory.get_semantic_classifier: resolve the config
(defaults 0.6 / SQL_QUERY), cache key semantic_{threshold}_{fallback},
construct on a miss passing confidence_threshold AND fallback_intent. -/
def getSemanticClassifier (st : FactoryState)
    (confidenceThreshold : Option ℚ) (fallbackIntent : Option Intent) :
    Except PyExn Nat × FactoryState :=
  let thr := confidenceThreshold.getD (6/10)
  let fb := fallbackIntent.getD Intent.sql_query
  let key := FKey.semanticKey thr fb
  match st.instances.find? (·.1 = key) with
  | some e => (.ok e.2, st)
  | none =>
    match callAccepts semanticInitParamNames
        [("confidence_threshold", .kq thr), ("fallback_intent", .kint fb)] with
    | .error e => (.error e, st)
    | .ok _ =>
      (.ok st.nextId,
       { instances := st.instances ++ [(key, st.nextId)],
         nextId := st.nextId + 1 })

/-! ## Agent (app/ai/agents/base_agent.py) and service
(app/ai/services/nl2sql_service.py)

BaseAgent.ask returns a plain Python dict whose key set depends on the
path taken; run then indexes that dict, so dicts and KeyError are
embedded directly.  NL2SQLAgent._process_question catches its own
exceptions, but BaseAgent is generic over agent implementations, so the
processing step is an oracle that may raise. -/

inductive PVal where
  | pstr : String → PVal
  | pbool : Bool → PVal
  | pint : Int → PVal
  | pnone : PVal
  | prows : List Row → PVal
  | pdict : List (String × PVal) → PVal

abbrev PyDict : Type := List (String × PVal)

/-- Python d[k] on a dict. -/
def dictGet (d : PyDict) (k : String) : Except PyExn PVal :=
  match d.find? (·.1 = k) with
  | some kv => .ok kv.2
  | none => .error (.keyError k)

/-- Python v[k] on an arbitrary value. -/
def pvalGetItem (v : PVal) (k : String) : Except PyExn PVal :=
  match v with
  | .pdict d => dictGet d k
  | _ => .error (.typeError "object is not subscriptable")

/-- Python truthiness of an embedded value. -/
def pyTruthy : PVal → Bool
  | .pstr s => s ≠ ""
  | .pbool b => b
  | .pint i => i ≠ 0
  | .pnone => false
  | .prows r => ¬ r.isEmpty
  | .pdict d => ¬ d.isEmpty

/-- Python truthiness of a value read from the cache (None when absent). -/
def cvalTruthy : Option CVal → Bool
  | none => false
  | some (.vstr s) => s ≠ ""
  | some (.vrows r) => ¬ r.isEmpty
  | some (.vint i) => i ≠ 0
  | some (.vhist l) => ¬ l.isEmpty
  | some (.vstats _) => true

/-- str(e) for recording an exception into history. -/
def pyExnStr : PyExn → String
  | .keyError k => k
  | .typeError m => m
  | .valueError m => m
  | .ioError m => m
  | .fileNotFound m => m
  | .zeroDivision => "division by zero"
  | .generic m => m

/-- models/nl2sql_response.py: NL2SQLResponse structured output. -/
structure NL2SQLResponse where
  interpretedAnswer : String
  sqlQuery : String
  execResult : List Row
deriving DecidableEq, Repr

/-- settings.MAX_CHAT_HISTORY_CNT default. -/
def MAX_CHAT_HISTORY_CNT : Nat := 5

/-- BaseAgent.ask.  The processing oracle stands for
self._process_question; for NL2SQLAgent it returns the parsed structured
response (answer = interpreted_answer, plus structured_response and
metadata entries), and BaseAgent treats it as fallible.  The returned
dict spreads result minus its answer and metadata keys, so the metadata
key is absent from ask's result, and the error paths also lack
structured_response. -/
def agentAsk (now : Nat)
    (proc : String → String → Except PyExn NL2SQLResponse)
    (question : String) (sessionId : Option String) (c : Cache) :
    PyDict × Cache :=
  match sessionId with
  | none =>
    ([("question", .pstr question),
      ("answer", .pstr "session_id is required"),
      ("session_id", .pnone),
      ("success", .pbool false)], c)
  | some sid =>
    let (context, c) := getConversationContext now sid MAX_CHAT_HISTORY_CNT c
    let conversationInput :=
      if context ≠ "" then
        "Previous conversation:\n" ++ context ++ "\n\nCurrent question: "
          ++ question
      else question
    let (_, c) := addMessage MAX_CHAT_HISTORY_CNT now sid "user" question c
    match proc question conversationInput with
    | .ok result =>
      let answer := result.interpretedAnswer
      let (_, c) := addMessage MAX_CHAT_HISTORY_CNT now sid "assistant"
        answer c
      ([("question", .pstr question),
        ("answer", .pstr answer),
        ("session_id", .pstr sid),
        ("success", .pbool true),
        ("structured_response", .pdict
          [("interpreted_answer", .pstr result.interpretedAnswer),
           ("sql_query", .pstr result.sqlQuery),
           ("exec_result", .prows result.execResult)])], c)
    | .error e =>
      let errorMsg := "Error processing question: " ++ pyExnStr e
      let (_, c) := addMessage MAX_CHAT_HISTORY_CNT now sid "system"
        errorMsg c
      ([("question", .pstr question),
        ("answer", .pstr errorMsg),
        ("session_id", .pstr sid),
        ("success", .pbool false)], c)

/-! ### Response envelope and CSV export collaborators -/

inductive RespType where
  | text | table | sql | download
deriving DecidableEq, Repr

/-- data: Union[str, List[Dict]]. -/
inductive RespData where
  | rstr : String → RespData
  | rrows : List Row → RespData
deriving DecidableEq, Repr

/-- NL2SQLServiceResponse (pydantic model at the top of
nl2sql_service.py). -/
structure NL2SQLServiceResponse where
  question : String
  answer : String
  sessionId : Option String
  success : Bool
  data : RespData
  type : RespType
deriving DecidableEq, Repr

/-- External collaborators and per-call inputs of the service: clock,
fresh uuid, the semantic classifier the factory was asked for, the agent
processing step, and the file/upload side of the CSV exporter
(app/utils/csv_utils.py, app/utils/drive_utils.py). -/
structure ServiceEnv where
  now : Nat
  freshSid : String
  semantic : SemanticClassifier
  proc : String → String → Except PyExn NL2SQLResponse
  csvFilename : String
  writeCsv : List Row → Except PyExn Unit
  fileExists : String → Bool
  upload : String → Except PyExn String

/-- csv_utils.dict_list_to_csv: rejects empty data with ValueError,
otherwise writes the file (any write failure is re-raised as IOError) and
returns the file path.  The list-of-dicts type check always passes in the
typed embedding. -/
def dictListToCsv (env : ServiceEnv) (data : List Row) :
    Except PyExn String :=
  if data.isEmpty then .error (.valueError "Data list cannot be empty")
  else
    let filename := env.csvFilename
    let filename :=
      if strEndsWith filename ".csv" then filename else filename ++ ".csv"
    let filePath := "exports/" ++ filename
    match env.writeCsv data with
    | .ok _ => .ok filePath
    | .error e =>
      .error (.ioError ("Failed to create CSV file: " ++ pyExnStr e))

/-- csv_utils.upload_csv: FileNotFoundError when the file is gone, and an
upload failure is logged and re-raised. -/
def uploadCsv (env : ServiceEnv) (filePath : String) :
    Except PyExn String :=
  if ¬ env.fileExists filePath then
    .error (.fileNotFound ("CSV file not found: " ++ filePath))
  else
    match env.upload filePath with
    | .ok url => .ok url
    | .error e => .error e

/-- csv_utils.create_and_upload_csv. -/
def createAndUploadCsv (env : ServiceEnv) (data : List Row) :
    Except PyExn (String × String) := do
  let localPath ← dictListToCsv env data
  let downloadUrl ← uploadCsv env localPath
  pure (localPath, downloadUrl)

/-! ### NL2SQLService -/

def sqlKey (sid : String) : String := "res:" ++ sid ++ ":sql"

def execResKey (sid : String) : String := "res:" ++ sid ++ ":exec_res"

/-- NL2SQLService.get_last_sql. -/
def getLastSql (now : Nat) (sid : String) (c : Cache) :
    Option CVal × Cache :=
  cacheGet now (sqlKey sid) c

/-- NL2SQLService.get_last_exec_res. -/
def getLastExecRes (now : Nat) (sid : String) (c : Cache) :
    Option CVal × Cache :=
  cacheGet now (execResKey sid) c

/-- NL2SQLService.store_exec_result: two plain sets, sql first. -/
def storeExecResult (now : Nat) (sid sql : String) (res : List Row)
    (c : Cache) : Cache :=
  let c := cacheSet now (sqlKey sid) (.vstr sql) none c
  cacheSet now (execResKey sid) (.vrows res) none c

/-- The intent-classification step of NL2SQLService.run: regex first
(threshold 0.8), falling back to the semantic classifier when the regex
result is not confident and taking the semantic intent either way. -/
def serviceIntent (env : ServiceEnv) (question : String) :
    Except PyExn Intent := do
  let regexResult ← serviceRegexClassifier.classify question
  if isConfident serviceRegexClassifier.confidenceThreshold regexResult then
    pure regexResult.intent
  else do
    let semanticResult ← env.semantic.classify question
    pure semanticResult.intent

/-- The SQL_QUERY branch of run after the agent call, plus the shared
res.answer assignment that follows the branch: on agent success the code
indexes agent_res["metadata"] (a key ask never returns) before the cache
write, and both outcomes then index
agent_res["structured_response"]["interpreted_answer"].  run has no
try/except, so every KeyError propagates. -/
def runSqlBranch (env : ServiceEnv) (c : Cache) (sessionId : String)
    (res : NL2SQLServiceResponse) (agentRes : PyDict) :
    Except PyExn NL2SQLServiceResponse × Cache :=
  match dictGet agentRes "success" with
  | .error e => (.error e, c)
  | .ok successV =>
    let afterIf : Except PyExn (NL2SQLServiceResponse × Cache) :=
      if pyTruthy successV then
        match dictGet agentRes "metadata" with
        | .error e => .error e
        | .ok metadataV =>
          match pvalGetItem metadataV "sql_query",
                pvalGetItem metadataV "exec_result" with
          | .ok sqlV, .ok execV =>
            -- ask only ever builds pstr/prows at these keys
            let sql := match sqlV with | .pstr s => s | _ => ""
            let rows := match execV with | .prows r => r | _ => []
            let c := storeExecResult env.now sessionId sql rows c
            match dictGet agentRes "structured_response" with
            | .error e => .error e
            | .ok srV =>
              match pvalGetItem srV "exec_result" with
              | .error e => .error e
              | .ok dataV =>
                let rows := match dataV with | .prows r => r | _ => []
                .ok ({ res with data := .rrows rows, success := true,
                                type := if rows.length > 1 then .table
                                        else .text }, c)
          | .error e, _ => .error e
          | _, .error e => .error e
      else
        .ok (res, c)
    match afterIf with
    | .error e => (.error e, c)
    | .ok (res, c) =>
      match dictGet agentRes "structured_response" with
      | .error e => (.error e, c)
      | .ok srV =>
        match pvalGetItem srV "interpreted_answer" with
        | .error e => (.error e, c)
        | .ok answerV =>
          let answer := match answerV with | .pstr s => s | _ => ""
          (.ok { res with answer := answer }, c)

/-- NL2SQLService.run. -/
def run (env : ServiceEnv) (c : Cache) (question sessionId : String) :
    Except PyExn NL2SQLServiceResponse × Cache :=
  let (sessionId, c) :=
    if sessionId = "" then createSession env.now env.freshSid c
    else (sessionId, c)
  let res : NL2SQLServiceResponse :=
    { question := question, answer := "", sessionId := some sessionId,
      success := false, data := .rstr "", type := .text }
  match serviceIntent env question with
  | .error e => (.error e, c)
  | .ok intent =>
    if intent = Intent.greeting then
      (.ok { res with answer := "Hello, how can I help you?",
                      success := true }, c)
    else if intent = Intent.sql_query then
      let (agentRes, c) := agentAsk env.now env.proc question
        (some sessionId) c
      runSqlBranch env c sessionId res agentRes
    else if intent = Intent.show_sql then
      let (sqlOpt, c) := getLastSql env.now sessionId c
      if cvalTruthy sqlOpt then
        let sql := match sqlOpt with | some (.vstr s) => s | _ => ""
        (.ok { res with
                 success := true, data := .rstr sql, type := .sql,
                 answer := "Here is the SQL Query I used to get the data:\n" },
         c)
      else
        (.ok { res with
               answer := "No SQL query was excuted for your previous request." },
         c)
    else if intent = Intent.export_csv then
      let (execOpt, c) := getLastExecRes env.now sessionId c
      if cvalTruthy execOpt then
        let rows := match execOpt with | some (.vrows r) => r | _ => []
        match createAndUploadCsv env rows with
        | .error e => (.error e, c)
        | .ok (_, downloadUrl) =>
          (.ok { res with
                   data := .rstr downloadUrl, success := true,
                   type := .download,
                   answer := "Here is the download link of csv file showing the result:\n" },
           c)
      else
        (.ok { res with
               answer := "No SQL query was excuted for your previous request." },
         c)
    else
      (.ok res, c)

/-! ## Observation helpers and key disjointness -/

/-- The raw message list stored at a session's history key. -/
def storedHist (c : Cache) (sid : String) : List Message :=
  match c (histKey sid) with
  | some e =>
    match e.value with
    | .vhist l => l
    | _ => []
  | none => []

/-- The most recent k elements of a list (the spec's truncation). -/
def takeLast (k : Nat) (l : List α) : List α :=
  l.drop (l.length - k)

/-- One add_message call of a sequence: its wall-clock time, role and
content. -/
structure AddOp where
  time : Nat
  role : String
  content : String
deriving DecidableEq, Repr

/-- Build a Message record. -/
def mkMessage (role content : String) (ts : Nat) : Message :=
  { role := role, content := content, timestamp := ts }

/-- The Message each op turns into. -/
def msgsOf (ops : List AddOp) : List Message :=
  ops.map (fun op => mkMessage op.role op.content op.time)

/-- Run a sequence of add_message calls against one session. -/
def applyAdds (maxTurns : Nat) (sid : String) (ops : List AddOp)
    (c : Cache) : Cache :=
  ops.foldl
    (fun c op => (addMessage maxTurns op.time sid op.role op.content c).2) c

/-- Consecutive calls happen within the cache TTL of the previous write
(so the history entry is never expired between two adds). -/
def gapOkFrom (t : Nat) : List AddOp → Bool
  | [] => true
  | op :: rest => decide (op.time ≤ t + CACHE_TTL) && gapOkFrom op.time rest

def gapOk : List AddOp → Bool
  | [] => true
  | op :: rest => gapOkFrom op.time (op :: rest)

/-- The history list a cache.get at time now returns for a session (the
read half of add_message). -/
def readHist (now : Nat) (sid : String) (c : Cache) : List Message :=
  match (cacheGet now (histKey sid) c).1 with
  | some (.vhist l) => l
  | _ => []

/-- Fifteen consecutive adds at one instant (the spec's 15-message
example). -/
def ops15 : List AddOp :=
  (List.range 15).map (fun i =>
    { time := 0, role := "user", content := toString i })

/-- A fixed successful structured agent answer. -/
def okAnswer : NL2SQLResponse :=
  { interpretedAnswer := "ans", sqlQuery := "SELECT 1",
    execResult := [[("a", "1")]] }

/-- A service environment whose agent processing step always succeeds. -/
def okEnv : ServiceEnv :=
  { now := 0, freshSid := "sid-1", semantic := simpleSemanticClassifier,
    proc := fun _ _ => .ok okAnswer,
    csvFilename := "export_x.csv",
    writeCsv := fun _ => .ok (), fileExists := fun _ => true,
    upload := fun _ => .ok "http://drive/file-x" }

theorem length_takeLast (k : Nat) (l : List α) :
    (takeLast k l).length = min k l.length := by
  simp [takeLast]
  omega

theorem sqlKey_ne_execResKey (sid : String) : sqlKey sid ≠ execResKey sid := by
  intro h
  have hl := congrArg String.length h
  simp [sqlKey, execResKey, String.length_append] at hl
  exact absurd hl (by decide)

theorem histKey_ne_statsKey (sid : String) : histKey sid ≠ statsKey sid := by
  intro h
  have hl := congrArg String.length h
  simp [histKey, statsKey, String.length_append] at hl
  exact absurd hl (by decide)

/-- A pattern scan over patterns none of which match is the identity on
the accumulator. -/
theorem regexScan_of_no_match (text : String) :
    ∀ (pats : List (String × RegexPat)) (acc : Option String × ℚ),
      (∀ p ∈ pats, p.2 text = none) →
      pats.foldlM (regexScanStep text) acc = .ok acc := by
  intro pats
  induction pats with
  | nil => intro acc _; rfl
  | cons p rest ih =>
    intro acc h
    have hp : p.2 text = none := h p (List.mem_cons_self p rest)
    have hrest : ∀ q ∈ rest, q.2 text = none :=
      fun q hq => h q (List.mem_cons_of_mem p hq)
    simp only [List.foldlM_cons, regexScanStep, hp]
    exact ih acc hrest

theorem except_bind_ok {ε α β : Type} (x : α) (f : α → Except ε β) :
    (Except.ok x >>= f : Except ε β) = f x := rfl

theorem except_pure_eq {ε α : Type} (x : α) :
    (pure x : Except ε α) = Except.ok x := rfl

theorem CACHE_TTL_pos : 0 < CACHE_TTL := by decide

/-! ## Claims -/

/-- C10: MemoryCache.increment never returns: it takes the cache's single
non-reentrant asyncio lock and then awaits self.get (and self.set) on the
same cache, which try to take the same lock, so the coroutine blocks on
itself for every key, amount and cache state. -/
theorem claim10_increment_deadlock (held : Bool) (now : Nat) (key : String)
    (amount : Int) (c : Cache) :
    increment held now key amount c = ARes.blocked := by
  cases held <;> rfl

/-- C6 (code evaluation): get_semantic_classifier can never construct its
classifier: on every cache miss it calls SemanticClassifier with a
fallback_intent keyword that SemanticClassifier.__init__ does not accept,
so the call raises TypeError and nothing is cached. -/
theorem claim6_semantic_getter_raises (st : FactoryState) (thr : Option ℚ)
    (fb : Option Intent)
    (hmiss : st.instances.find?
      (fun e => e.1 = FKey.semanticKey (thr.getD (6/10))
        (fb.getD Intent.sql_query)) = none) :
    getSemanticClassifier st thr fb =
      (.error (.typeError "unexpected keyword argument fallback_intent"),
       st) := by
  simp only [getSemanticClassifier]
  rw [hmiss]
  exact rfl

/-- Witness for C6 at the call NL2SQLService.__init__ makes
(threshold 0.6, fallback SQL_QUERY) against the initial empty factory. -/
theorem claim6_witness :
    FactoryState.initial.instances.find?
      (fun e => e.1 = FKey.semanticKey ((some (6/10) : Option ℚ).getD (6/10))
        ((some Intent.sql_query : Option Intent).getD Intent.sql_query))
        = none
    ∧ getSemanticClassifier FactoryState.initial (some (6/10))
        (some Intent.sql_query) =
      (.error (.typeError "unexpected keyword argument fallback_intent"),
       FactoryState.initial) :=
  ⟨rfl, claim6_semantic_getter_raises FactoryState.initial (some (6/10))
    (some Intent.sql_query) rfl⟩

/-- C1 (counterexample): on input xyzzy no configured pattern matches,
yet the public classify of the pattern classifier returns UNKNOWN at
confidence 0.1, not SQL_QUERY: the internal SQL_QUERY fallback sits below
the 0.8 threshold, so BaseClassifier.classify replaces it with the
classifier's fallback intent, which RegexClassifier leaves at UNKNOWN. -/
theorem claim1_counterexample :
    serviceRegexClassifier.classify "xyzzy" =
      .ok { intent := Intent.unknown, confidence := 1/10,
            metadata := .fallbackMeta Intent.sql_query (1/10)
              "Low confidence" }
    ∧ Intent.unknown ≠ Intent.sql_query := by
  exact ⟨by decide, by decide⟩

/-- C1 (amended): for every input on which no configured pattern matches,
_classify_internal falls back to SQL_QUERY at confidence 0.1, and the
public classify — whenever the threshold exceeds 0.1 — replaces that with
the classifier's fallback intent UNKNOWN at confidence 0.1, keeping
SQL_QUERY only in the fallback metadata. -/
theorem claim1_amended (c : RegexClassifier) (text : String)
    (hnone : ∀ p ∈ c.compiledPatterns, p.2 (pyLower (pyStrip text)) = none)
    (hthr : (1/10 : ℚ) < c.confidenceThreshold) :
    c.classify text =
      .ok { intent := Intent.unknown, confidence := 1/10,
            metadata := .fallbackMeta Intent.sql_query (1/10)
              "Low confidence" } := by
  have hscan := regexScan_of_no_match (pyLower (pyStrip text)) c.compiledPatterns
    (none, 0) hnone
  have hthr2 : (10 : ℚ)⁻¹ < c.confidenceThreshold := by
    rw [← one_div]; exact hthr
  simp only [RegexClassifier.classify, baseClassify, regexClassifyInternal,
    regexScan, RegexClassifier.fallbackIntent]
  rw [hscan]
  simp [except_bind_ok, except_pure_eq, hthr2]

/-- Witness for C1's amended theorem at the service classifier and input
xyzzy. -/
theorem claim1_witness :
    (∀ p ∈ serviceRegexClassifier.compiledPatterns,
      p.2 (pyLower (pyStrip "xyzzy")) = none)
    ∧ serviceRegexClassifier.classify "xyzzy" =
      .ok { intent := Intent.unknown, confidence := 1/10,
            metadata := .fallbackMeta Intent.sql_query (1/10)
              "Low confidence" } :=
  ⟨by decide, claim1_amended serviceRegexClassifier "xyzzy" (by decide)
    (by decide)⟩

/-- C5 (counterexample): on input hello the similarity classifier's
internal best guess is GREETING at confidence 0.5, below the 0.6
threshold, but the public classify does not return that best guess: it
returns UNKNOWN at confidence 0.1. -/
theorem claim5_counterexample :
    semanticClassifyInternal simpleSemanticClassifier "hello" =
      .ok { intent := Intent.greeting, confidence := 1/2,
            metadata := .semanticMeta "hello there" "simple" }
    ∧ simpleSemanticClassifier.classify "hello" =
      .ok { intent := Intent.unknown, confidence := 1/10,
            metadata := .fallbackMeta Intent.greeting (1/2)
              "Low confidence" }
    ∧ Intent.unknown ≠ Intent.greeting := by
  exact ⟨by decide, by decide, by decide⟩

/-- C5 (amended): whenever the internal best-match confidence is below
the threshold, the public classify replaces the best guess by the
classifier's fallback intent (UNKNOWN, as constructed) at confidence 0.1;
the best guess survives only inside the fallback metadata. -/
theorem claim5_amended (c : SemanticClassifier) (text : String)
    (r : IntentResult)
    (hint : semanticClassifyInternal c text = .ok r)
    (hlow : r.confidence < c.confidenceThreshold) :
    c.classify text =
      .ok { intent := Intent.unknown, confidence := 1/10,
            metadata := .fallbackMeta r.intent r.confidence
              "Low confidence" } := by
  simp only [SemanticClassifier.classify, baseClassify,
    SemanticClassifier.fallbackIntent]
  rw [hint]
  simp [except_bind_ok, except_pure_eq, hlow]

/-- Witness for C5's amended theorem on input hello. -/
theorem claim5_witness :
    semanticClassifyInternal simpleSemanticClassifier "hello" =
      .ok { intent := Intent.greeting, confidence := 1/2,
            metadata := .semanticMeta "hello there" "simple" }
    ∧ simpleSemanticClassifier.classify "hello" =
      .ok { intent := Intent.unknown, confidence := 1/10,
            metadata := .fallbackMeta Intent.greeting (1/2)
              "Low confidence" } :=
  ⟨by decide, claim5_amended simpleSemanticClassifier "hello"
    { intent := Intent.greeting, confidence := 1/2,
      metadata := .semanticMeta "hello there" "simple" }
    (by decide) (by decide)⟩

/-- C8: storing an execution result and reading the last sql back (within
the cache TTL, with no intervening store) returns exactly that sql, and a
second store fully replaces the first: the read then returns only the
second sql, with no accumulation. -/
theorem claim8_result_cache (c : Cache) (sid sql sql2 : String)
    (rows rows2 : List Row) (t1 t2 t3 t4 : Nat)
    (h12 : t2 ≤ t1 + CACHE_TTL) (h34 : t4 ≤ t3 + CACHE_TTL) :
    (getLastSql t2 sid (storeExecResult t1 sid sql rows c)).1 =
      some (.vstr sql)
    ∧ (getLastSql t4 sid (storeExecResult t3 sid sql2 rows2
        (storeExecResult t1 sid sql rows c))).1 = some (.vstr sql2) := by
  have hne := sqlKey_ne_execResKey sid
  have hlt1 : ¬ (t1 + CACHE_TTL < t2) := Nat.not_lt.mpr h12
  have hlt2 : ¬ (t3 + CACHE_TTL < t4) := Nat.not_lt.mpr h34
  constructor
  · simp [getLastSql, storeExecResult, cacheGet, cleanupExpired, cacheSet,
      isExpiredEntry, hne, hlt1, CACHE_TTL_pos]
  · simp [getLastSql, storeExecResult, cacheGet, cleanupExpired, cacheSet,
      isExpiredEntry, hne, hlt2, CACHE_TTL_pos]

theorem trunc_takeLast_append {α : Type} (k : Nat) (hk : 1 ≤ k)
    (m : List α) (x : α) :
    (if (takeLast k m ++ [x]).length > k then
       pySliceLast k (takeLast k m ++ [x])
     else takeLast k m ++ [x]) = takeLast k (m ++ [x]) := by
  by_cases hmk : m.length < k
  · have h1 : m.length - k = 0 := by omega
    have ht : takeLast k m = m := by simp [takeLast, h1]
    have h2 : m.length + 1 - k = 0 := by omega
    rw [ht, if_neg (by
      simp only [List.length_append, List.length_cons, List.length_nil,
        gt_iff_lt, not_lt]
      omega)]
    simp [takeLast, List.length_append, h2]
  · have hdlen : (takeLast k m).length = k := by
      rw [length_takeLast]; omega
    have hkz : k ≠ 0 := by omega
    rw [if_pos (by
      simp only [List.length_append, List.length_cons, List.length_nil,
        hdlen, gt_iff_lt]
      omega)]
    rw [pySliceLast, if_neg hkz]
    have e1 : (takeLast k m ++ [x]).length - k = 1 := by
      simp only [List.length_append, List.length_cons, List.length_nil, hdlen]
      omega
    rw [e1, List.drop_append_of_le_length (by omega : 1 ≤ (takeLast k m).length)]
    simp only [takeLast, List.drop_drop]
    have e2 : ((m ++ [x]).length - k) = m.length - k + 1 := by
      simp only [List.length_append, List.length_cons, List.length_nil]
      omega
    rw [e2, List.drop_append_of_le_length (by omega : m.length - k + 1 ≤ m.length)]



theorem updateSessionStats_histKey (now : Nat) (sid : String) (c : Cache) :
    (updateSessionStats now sid c) (histKey sid) =
      (cleanupExpired now c) (histKey sid) := by
  have hne := histKey_ne_statsKey sid
  simp only [updateSessionStats, cacheGet]
  rcases hs : cleanupExpired now c (statsKey sid) with _ | e <;>
    simp only [hs, cacheSet] <;> split_ifs <;> simp_all [hne]

theorem addMessage_histEntry (k now : Nat) (sid role content : String)
    (c : Cache) :
    ((addMessage k now sid role content c).2) (histKey sid) =
      some { value := CVal.vhist (
               if (readHist now sid c ++
                   [mkMessage role content now]).length > k * 2 then
                 pySliceLast (k * 2) (readHist now sid c ++
                   [mkMessage role content now])
               else readHist now sid c ++ [mkMessage role content now]),
             createdAt := now, expiresAt := some (now + CACHE_TTL) } := by
  have hexp : ¬ (now + CACHE_TTL < now) :=
    Nat.not_lt.mpr (Nat.le_add_right now CACHE_TTL)
  simp only [addMessage, readHist]
  generalize hg : cacheGet now (histKey sid) c = pr
  obtain ⟨histOpt, c1⟩ := pr
  rw [updateSessionStats_histKey]
  simp [cleanupExpired, cacheSet, isExpiredEntry, CACHE_TTL_pos, hexp,
    mkMessage]


theorem readHist_of_entry (now : Nat) (sid : String) (c : Cache)
    (l : List Message) (t : Nat)
    (hc : c (histKey sid) = some { value := CVal.vhist l,
                                    createdAt := t,
                                    expiresAt := some (t + CACHE_TTL) })
    (hgap : now ≤ t + CACHE_TTL) :
    readHist now sid c = l := by
  simp [readHist, cacheGet, cleanupExpired, hc, isExpiredEntry,
    Nat.not_lt.mpr hgap]

theorem readHist_of_none (now : Nat) (sid : String) (c : Cache)
    (hc : c (histKey sid) = none) :
    readHist now sid c = [] := by
  simp [readHist, cacheGet, cleanupExpired, hc]

theorem applyAdds_storedHist (k : Nat) (hk : 1 ≤ k) (sid : String) :
    ∀ (ops : List AddOp) (m : List Message) (t : Nat) (c : Cache),
      (c (histKey sid) = some { value := CVal.vhist (takeLast (k*2) m),
                                createdAt := t,
                                expiresAt := some (t + CACHE_TTL) }
       ∨ (c (histKey sid) = none ∧ m = [])) →
      gapOkFrom t ops = true →
      storedHist (applyAdds k sid ops c) sid =
        takeLast (k*2) (m ++ msgsOf ops) := by
  intro ops
  induction ops with
  | nil =>
    intro m t c hinv _
    rcases hinv with hc | ⟨hc, hm⟩
    · simp [applyAdds, storedHist, hc, msgsOf]
    · subst hm
      simp [applyAdds, storedHist, hc, msgsOf, takeLast]
  | cons op rest ih =>
    intro m t c hinv hgap
    simp only [gapOkFrom, Bool.and_eq_true, decide_eq_true_eq] at hgap
    obtain ⟨hg1, hg2⟩ := hgap
    have hread : readHist op.time sid c = takeLast (k*2) m := by
      rcases hinv with hc | ⟨hc, hm⟩
      · exact readHist_of_entry _ _ _ _ _ hc hg1
      · subst hm
        simp [readHist_of_none _ _ _ hc, takeLast]
    have hstep := addMessage_histEntry k op.time sid op.role op.content c
    rw [hread, trunc_takeLast_append (k*2) (by omega) m _] at hstep
    have hfold : applyAdds k sid (op :: rest) c =
        applyAdds k sid rest
          ((addMessage k op.time sid op.role op.content c).2) := rfl
    rw [hfold]
    have happ := ih (m ++ [mkMessage op.role op.content op.time]) op.time
      ((addMessage k op.time sid op.role op.content c).2)
      (Or.inl hstep) hg2
    rw [happ]
    simp [msgsOf, List.append_assoc]

theorem gapOkFrom_take :
    ∀ (ops : List AddOp) (t n : Nat), gapOkFrom t ops = true →
      gapOkFrom t (ops.take n) = true := by
  intro ops
  induction ops with
  | nil =>
    intro t n h
    simp [List.take_nil, gapOkFrom]
  | cons op rest ih =>
    intro t n h
    cases n with
    | zero => simp [gapOkFrom]
    | succ n2 =>
      simp only [List.take_succ_cons, gapOkFrom, Bool.and_eq_true] at h ⊢
      exact ⟨h.1, ih op.time n2 h.2⟩

/-- C7: for every session and every TTL-respecting sequence of
add_message calls against a manager with max_turns = k (at least one
turn), after every prefix of the sequence the stored history is exactly
the most recent 2*k of the messages appended so far, in oldest-first
order (so the oldest are dropped first), and its length never exceeds
2*k.  Instantiated at max_turns = 5 with 15 appends this leaves exactly
the 10 most recent messages. -/
theorem claim7_history_bound (k : Nat) (hk : 1 ≤ k) (sid : String)
    (ops : List AddOp) (hgap : gapOk ops = true) (n : Nat) :
    storedHist (applyAdds k sid (ops.take n) emptyCache) sid
      = takeLast (k*2) (msgsOf (ops.take n))
    ∧ (storedHist (applyAdds k sid (ops.take n) emptyCache) sid).length
        ≤ k*2 := by
  have key : storedHist (applyAdds k sid (ops.take n) emptyCache) sid
      = takeLast (k*2) (msgsOf (ops.take n)) := by
    cases ops with
    | nil =>
      simp [List.take_nil, applyAdds, storedHist, emptyCache, msgsOf,
        takeLast]
    | cons op rest =>
      have hfrom : gapOkFrom op.time (op :: rest) = true := hgap
      have hinv : emptyCache (histKey sid) = none ∧ ([] : List Message) = [] :=
        ⟨rfl, rfl⟩
      have hkey := applyAdds_storedHist k hk sid ((op :: rest).take n) []
        op.time emptyCache (Or.inr hinv)
        (gapOkFrom_take (op :: rest) op.time n hfrom)
      simpa using hkey
  refine ⟨key, ?_⟩
  rw [key, length_takeLast]
  omega


/-- Witness for C7: max_turns = 5, fifteen adds at one instant leave
takeLast 10 of the appended messages. -/
theorem claim7_witness :
    (1 : Nat) ≤ 5 ∧ gapOk ops15 = true
    ∧ (storedHist (applyAdds 5 "s" (ops15.take 15) emptyCache) "s"
        = takeLast (5*2) (msgsOf (ops15.take 15))
      ∧ (storedHist (applyAdds 5 "s" (ops15.take 15) emptyCache)
          "s").length ≤ 5*2) :=
  ⟨by norm_num, by decide,
   claim7_history_bound 5 (by norm_num) "s" ops15 (by decide) 15⟩

/-- C2 (code evaluation): run propagates exceptions.  On a question the
classifiers route to SQL_QUERY, with the agent processing step fully
succeeding, run reads agent_res["metadata"] — a key BaseAgent.ask never
returns, because ask spreads the result minus its answer and metadata
keys — so a KeyError escapes run; run contains no try/except at all (the
export branch likewise propagates collaborator failures). -/
theorem claim2_run_raises :
    (run okEnv emptyCache "show top apps by revenue" "s1").1 =
      .error (.keyError "metadata") := by
  decide

/-- C4 (counterexample): a run call that takes the GREETING branch records
nothing into the conversation store — the history of the session is empty
after the call — contradicting the claim that user and assistant turns
are recorded regardless of the branch taken. -/
theorem claim4_counterexample :
    (run okEnv emptyCache "hello" "s1").1 =
      .ok { question := "hello", answer := "Hello, how can I help you?",
            sessionId := some "s1", success := true, data := .rstr "",
            type := .text }
    ∧ storedHist (run okEnv emptyCache "hello" "s1").2 "s1" = [] := by
  exact ⟨by decide, by decide⟩

theorem matchConfs_cons_none (text : String) (p : String × RegexPat)
    (rest : List (String × RegexPat)) (hm : p.2 text = none) :
    matchConfs text (p :: rest) = matchConfs text rest := by
  simp [matchConfs, List.filterMap_cons, hm]

theorem matchConfs_cons_some (text : String) (p : String × RegexPat)
    (rest : List (String × RegexPat)) (m : String)
    (hm : p.2 text = some m) :
    matchConfs text (p :: rest) =
      (p.1, patConf text m) :: matchConfs text rest := by
  simp [matchConfs, List.filterMap_cons, hm]


theorem regexScanStep_some (text : String) (acc : Option String × ℚ)
    (p : String × RegexPat) (m : String) (hm : p.2 text = some m)
    (hlen : text.length ≠ 0) :
    regexScanStep text acc p =
      pure (if patConf text m > acc.2 then (some p.1, patConf text m)
            else acc) := by
  simp only [regexScanStep, hm, if_neg hlen, patConf]

theorem regexScan_chooseBest (text : String) (hlen : text.length ≠ 0) :
    ∀ (pats : List (String × RegexPat)) (acc : Option String × ℚ),
      pats.foldlM (regexScanStep text) acc = .ok (
        match chooseBest (matchConfs text pats) with
        | none => acc
        | some b => if b.2 > acc.2 then (some b.1, b.2) else acc) := by
  intro pats
  induction pats with
  | nil => intro acc; rfl
  | cons p rest ih =>
    intro acc
    rw [List.foldlM_cons]
    cases hm : p.2 text with
    | none =>
      rw [matchConfs_cons_none text p rest hm]
      simp only [regexScanStep, hm, except_pure_eq, except_bind_ok]
      exact ih acc
    | some m =>
      rw [matchConfs_cons_some text p rest m hm,
        regexScanStep_some text acc p m hm hlen]
      simp only [except_pure_eq, except_bind_ok]
      rw [ih]
      clear ih
      simp only [chooseBest]
      generalize patConf text m = cf
      rcases hcb : chooseBest (matchConfs text rest) with _ | y <;>
          simp [hcb] <;> split_ifs <;>
          try first
          | rfl
          | (exfalso; linarith)
          | simp_all
      all_goals split_ifs <;>
        first
        | rfl
        | (exfalso; linarith)


/-- C9: on a nonempty normalized input the pattern scan selects exactly
the chooseBest of the per-pattern confidences patConf (the code's
min(0.9, matchLength/textLength x 1.2), overridden to 0.95 when the
stripped match equals the whole normalized input): the
highest-confidence match wins and ties keep the first pattern
encountered (a best of 0 never displaces the initial no-match state).
Concretely, inputs equal to a configured pattern, case-insensitively,
classify to that pattern's intent at confidence 0.95. -/
theorem claim9_regex_confidence :
    (∀ (pats : List (String × RegexPat)) (text : String),
      text.length ≠ 0 →
      regexScan text pats = .ok (
        match chooseBest (matchConfs text pats) with
        | none => (none, (0 : ℚ))
        | some b => if b.2 > (0 : ℚ) then (some b.1, b.2) else (none, 0)))
    ∧ serviceRegexClassifier.classify "Hello" =
        .ok { intent := Intent.greeting, confidence := 95/100,
              metadata := .regexMeta "hello" }
    ∧ serviceRegexClassifier.classify "Show Me The SQL" =
        .ok { intent := Intent.show_sql, confidence := 95/100,
              metadata := .regexMeta "show me the sql" }
    ∧ serviceRegexClassifier.classify "export csv" =
        .ok { intent := Intent.export_csv, confidence := 95/100,
              metadata := .regexMeta "export csv" } := by
  refine ⟨?_, by decide, by decide, by decide⟩
  intro pats text hlen
  exact regexScan_chooseBest text hlen pats (none, 0)

/-- Witness for C9's scan characterization on a concrete input. -/
theorem claim9_witness :
    ("hello there".length ≠ 0)
    ∧ regexScan "hello there" specCompiled = .ok (
        match chooseBest (matchConfs "hello there" specCompiled) with
        | none => (none, (0 : ℚ))
        | some b => if b.2 > (0 : ℚ) then (some b.1, b.2) else (none, 0)) :=
  ⟨by decide,
   claim9_regex_confidence.1 specCompiled "hello there" (by decide)⟩

/-- Witness for C8 at concrete stores and reads. -/
theorem claim8_witness :
    (0 : Nat) ≤ 0 + CACHE_TTL
    ∧ ((getLastSql 0 "s" (storeExecResult 0 "s" "SELECT 1"
        [[("a", "1")]] emptyCache)).1 = some (.vstr "SELECT 1")
      ∧ (getLastSql 0 "s" (storeExecResult 0 "s" "SELECT 2"
          [[("b", "2")]] (storeExecResult 0 "s" "SELECT 1"
          [[("a", "1")]] emptyCache))).1 = some (.vstr "SELECT 2")) :=
  ⟨Nat.le_add_left 0 CACHE_TTL,
   claim8_result_cache emptyCache "s" "SELECT 1" "SELECT 2"
     [[("a", "1")]] [[("b", "2")]] 0 0 0 0
     (Nat.le_add_left 0 CACHE_TTL) (Nat.le_add_left 0 CACHE_TTL)⟩


theorem chooseBest_mem :
    ∀ (l : List (String × ℚ)) (b : String × ℚ),
      chooseBest l = some b → b ∈ l := by
  intro l
  induction l with
  | nil => intro b h; simp [chooseBest] at h
  | cons x rest ih =>
    intro b h
    simp only [chooseBest] at h
    rcases hcb : chooseBest rest with _ | y <;> rw [hcb] at h
    · simp at h
      subst h
      exact List.mem_cons_self x rest
    · have h2 : (if y.2 > x.2 then some y else some x) = some b := h
      split_ifs at h2 <;> simp at h2 <;> subst h2
      · exact List.mem_cons_of_mem x (ih y hcb)
      · exact List.mem_cons_self x rest

theorem argmaxFirst_mem :
    ∀ (l : List (String × String × ℚ)) (b : String × String × ℚ),
      argmaxFirst l = some b → b ∈ l := by
  intro l
  induction l with
  | nil => intro b h; simp [argmaxFirst] at h
  | cons x rest ih =>
    intro b h
    simp only [argmaxFirst] at h
    rcases hcb : argmaxFirst rest with _ | y <;> rw [hcb] at h
    · simp at h
      subst h
      exact List.mem_cons_self x rest
    · have h2 : (if y.2.2 > x.2.2 then some y else some x) = some b := h
      split_ifs at h2 <;> simp at h2 <;> subst h2
      · exact List.mem_cons_of_mem x (ih y hcb)
      · exact List.mem_cons_self x rest

theorem argmaxFirst_of_ne_nil (l : List (String × String × ℚ))
    (h : l ≠ []) : ∃ b, argmaxFirst l = some b := by
  cases l with
  | nil => exact absurd rfl h
  | cons x rest =>
    simp only [argmaxFirst]
    rcases argmaxFirst rest with _ | y
    · exact ⟨x, rfl⟩
    · by_cases hy : y.2.2 > x.2.2
      · exact ⟨y, show (if y.2.2 > x.2.2 then some y else some x) = some y
          from if_pos hy⟩
      · exact ⟨x, show (if y.2.2 > x.2.2 then some y else some x) = some x
          from if_neg hy⟩

theorem patConf_bounds (text m : String) :
    0 ≤ patConf text m ∧ patConf text m ≤ 1 := by
  unfold patConf
  split_ifs
  · constructor <;> norm_num
  · constructor
    · apply le_min (by norm_num)
      apply mul_nonneg _ (by norm_num)
      exact div_nonneg (Nat.cast_nonneg _) (Nat.cast_nonneg _)
    · calc min (9/10 : ℚ) _ ≤ 9/10 := min_le_left _ _
        _ ≤ 1 := by norm_num

theorem simpleSimilarity_bounds (t1 t2 : String) :
    0 ≤ simpleSimilarity t1 t2 ∧ simpleSimilarity t1 t2 ≤ 1 := by
  simp only [simpleSimilarity]
  split_ifs with h1 h2
  · constructor <;> norm_num
  · constructor <;> norm_num
  · have hpos : 0 < ((wordSet t1 ∪ wordSet t2).card : ℚ) := by
      have := Finset.card_pos.mpr (Finset.nonempty_iff_ne_empty.mpr h2)
      exact_mod_cast this
    constructor
    · exact div_nonneg (Nat.cast_nonneg _) (Nat.cast_nonneg _)
    · rw [div_le_one hpos]
      have hsub : wordSet t1 ∩ wordSet t2 ⊆ wordSet t1 ∪ wordSet t2 :=
        Finset.inter_subset_union
      exact_mod_cast Finset.card_le_card hsub



theorem string_eq_empty_of_data_nil {s : String} (h : s.data = []) :
    s = "" := by
  cases s with
  | mk l =>
    have h2 : l = [] := h
    subst h2
    rfl

theorem litPat_of_data_nil (p : String) (hp : p ≠ "") (text : String)
    (htext : text.data = []) : litPat p text = none := by
  have hne : (pyLower p).data ≠ [] := by
    intro hnil
    have : p.data = [] := by
      have : p.data.map Char.toLower = [] := hnil
      simpa using this
    exact hp (string_eq_empty_of_data_nil this)
  rw [litPat, htext]
  have : hasSubstr (pyLower p).data [] = false := by
    simp [hasSubstr, List.isEmpty_iff, hne]
  rw [this]
  simp


theorem baseClassify_bounds (thr : ℚ) (fb : Intent)
    (internal : String → Except PyExn IntentResult) (text : String)
    (h : ∃ r0, internal text = .ok r0 ∧ 0 ≤ r0.confidence
      ∧ r0.confidence ≤ 1) :
    ∃ r, baseClassify thr fb internal text = .ok r
      ∧ 0 ≤ r.confidence ∧ r.confidence ≤ 1 := by
  obtain ⟨r0, h0, hl, hu⟩ := h
  simp only [baseClassify]
  rw [h0]
  by_cases hc : r0.confidence < thr
  · refine ⟨{ intent := fb,
              confidence := 1/10,
              metadata := .fallbackMeta r0.intent r0.confidence
                "Low confidence" },
      ?_, by norm_num, by norm_num⟩
    simp [except_bind_ok, except_pure_eq, hc]
  · refine ⟨r0, ?_, hl, hu⟩
    simp [except_bind_ok, except_pure_eq, hc]


theorem regexClassifyInternal_litPat_bounds (ps : List (String × String))
    (hps : ∀ p ∈ ps, p.2 ≠ "") (text : String) :
    ∃ r0, regexClassifyInternal (ps.map (fun p => (p.1, litPat p.2))) ps text
        = .ok r0 ∧ 0 ≤ r0.confidence ∧ r0.confidence ≤ 1 := by
  by_cases hnil : (pyLower (pyStrip text)).data = []
  · have hnomatch : ∀ q ∈ ps.map (fun p => (p.1, litPat p.2)),
        q.2 (pyLower (pyStrip text)) = none := by
      intro q hq
      obtain ⟨p, hp, rfl⟩ := List.mem_map.mp hq
      exact litPat_of_data_nil p.2 (hps p hp) _ hnil
    have hscan := regexScan_of_no_match (pyLower (pyStrip text))
      (ps.map (fun p => (p.1, litPat p.2))) (none, 0) hnomatch
    refine ⟨{ intent := Intent.sql_query,
              confidence := 1/10,
              metadata := .regexMeta (((ps.find? (·.1 = "")).map
                Prod.snd).getD "") },
      ?_, by norm_num, by norm_num⟩
    simp only [regexClassifyInternal, regexScan]
    rw [hscan]
    rfl
  · have hlen : (pyLower (pyStrip text)).length ≠ 0 := by
      intro h0
      have h1 : (pyLower (pyStrip text)).data.length = 0 := h0
      exact hnil (List.length_eq_zero.mp h1)
    have hscan := regexScan_chooseBest (pyLower (pyStrip text)) hlen
      (ps.map (fun p => (p.1, litPat p.2))) (none, 0)
    rcases hcb : chooseBest (matchConfs (pyLower (pyStrip text))
        (ps.map (fun p => (p.1, litPat p.2)))) with _ | b
    · rw [hcb] at hscan
      have hscan2 : (ps.map (fun p => (p.1, litPat p.2))).foldlM
          (regexScanStep (pyLower (pyStrip text))) ((none : Option String),
            (0 : ℚ)) = .ok (none, 0) := hscan
      refine ⟨{ intent := Intent.sql_query,
                confidence := 1/10,
                metadata := .regexMeta (((ps.find? (·.1 = "")).map
                  Prod.snd).getD "") },
        ?_, by norm_num, by norm_num⟩
      simp only [regexClassifyInternal, regexScan]
      rw [hscan2]
      rfl
    · rw [hcb] at hscan
      by_cases hbp : b.2 > 0
      · have hscan2 : (ps.map (fun p => (p.1, litPat p.2))).foldlM
            (regexScanStep (pyLower (pyStrip text)))
            ((none : Option String), (0 : ℚ)) = .ok (some b.1, b.2) := by
          rw [hscan]
          show Except.ok (if b.2 > 0 then ((some b.1 : Option String), b.2)
            else (none, 0)) = _
          rw [if_pos hbp]
        have hb := chooseBest_mem _ b hcb
        obtain ⟨q, hq, hqb⟩ := List.mem_filterMap.mp hb
        rcases hqm : q.2 (pyLower (pyStrip text)) with _ | m
        · rw [hqm] at hqb
          simp at hqb
        · rw [hqm] at hqb
          have hqb2 : (q.1, patConf (pyLower (pyStrip text)) m) = b :=
            Option.some.inj hqb
          have hconf := congrArg Prod.snd hqb2
          have hbnds := patConf_bounds (pyLower (pyStrip text)) m
          refine ⟨{ intent := (intentOfString b.1).getD Intent.sql_query,
                    confidence := b.2,
                    metadata := .regexMeta (((ps.find? (·.1 = b.1)).map
                      Prod.snd).getD "") },
            ?_, by rw [← hconf]; exact hbnds.1,
            by rw [← hconf]; exact hbnds.2⟩
          simp only [regexClassifyInternal, regexScan]
          rw [hscan2]
          rfl
      · have hscan2 : (ps.map (fun p => (p.1, litPat p.2))).foldlM
            (regexScanStep (pyLower (pyStrip text)))
            ((none : Option String), (0 : ℚ)) = .ok (none, 0) := by
          rw [hscan]
          show Except.ok (if b.2 > 0 then ((some b.1 : Option String), b.2)
            else (none, 0)) = _
          rw [if_neg hbp]
        refine ⟨{ intent := Intent.sql_query,
                  confidence := 1/10,
                  metadata := .regexMeta (((ps.find? (·.1 = "")).map
                    Prod.snd).getD "") },
          ?_, by norm_num, by norm_num⟩
        simp only [regexClassifyInternal, regexScan]
        rw [hscan2]
        rfl


theorem simpleScanFold_bounds (text : String) :
    ∀ (ps : List (String × String)) (acc : Option String × String × ℚ),
      0 ≤ acc.2.2 → acc.2.2 ≤ 1 →
      0 ≤ (ps.foldl (fun acc p =>
          let sim := simpleSimilarity text p.2
          if sim > acc.2.2 then (some p.1, p.2, sim) else acc) acc).2.2
      ∧ (ps.foldl (fun acc p =>
          let sim := simpleSimilarity text p.2
          if sim > acc.2.2 then (some p.1, p.2, sim) else acc) acc).2.2 ≤ 1
    := by
  intro ps
  induction ps with
  | nil => intro acc h0 h1; exact ⟨h0, h1⟩
  | cons p rest ih =>
    intro acc h0 h1
    simp only [List.foldl_cons]
    by_cases hs : simpleSimilarity text p.2 > acc.2.2
    · have hred : (let sim := simpleSimilarity text p.2
          if sim > acc.2.2 then ((some p.1 : Option String), p.2, sim)
          else acc) = (some p.1, p.2, simpleSimilarity text p.2) := by
        show (if simpleSimilarity text p.2 > acc.2.2 then _ else _) = _
        rw [if_pos hs]
      rw [hred]
      exact ih _ (simpleSimilarity_bounds text p.2).1
        (simpleSimilarity_bounds text p.2).2
    · have hred : (let sim := simpleSimilarity text p.2
          if sim > acc.2.2 then ((some p.1 : Option String), p.2, sim)
          else acc) = acc := by
        show (if simpleSimilarity text p.2 > acc.2.2 then _ else _) = _
        rw [if_neg hs]
      rw [hred]
      exact ih acc h0 h1

theorem simpleScan_bounds (c : SemanticClassifier) (text : String) :
    0 ≤ (simpleScan c text).2.2 ∧ (simpleScan c text).2.2 ≤ 1 := by
  simp only [simpleScan]
  exact simpleScanFold_bounds text _ (none, "", 0) (by norm_num) (by norm_num)

theorem semanticClassifyInternal_bounds (c : SemanticClassifier)
    (text : String) (hsim : ∀ t e, c.rawSim t e ≤ 1) :
    ∃ r0, semanticClassifyInternal c text = .ok r0
      ∧ 0 ≤ r0.confidence ∧ r0.confidence ≤ 1 := by
  cases hE : c.useEmbeddings with
  | true =>
    by_cases hempty : (embeddingPairs c).isEmpty
    · refine ⟨{ intent := Intent.sql_query,
                confidence := 1/10,
                metadata := .semanticMeta "" "embeddings" },
        ?_, by norm_num, by norm_num⟩
      simp only [semanticClassifyInternal, hE, hempty, if_true, and_true]
    · have hne : (embeddingPairs c).map
          (fun p => (p.1, p.2, max 0 (c.rawSim (pyStrip text) p.2))) ≠ [] := by
        intro h
        exact hempty (by
          rw [List.isEmpty_iff]
          exact List.map_eq_nil_iff.mp h)
      obtain ⟨b, hb⟩ := argmaxFirst_of_ne_nil _ hne
      have hmem := argmaxFirst_mem _ b hb
      obtain ⟨p, hp, hpb⟩ := List.mem_map.mp hmem
      have hconf : b.2.2 = max 0 (c.rawSim (pyStrip text) p.2) := by
        rw [← hpb]
      have h0 : 0 ≤ b.2.2 := by rw [hconf]; exact le_max_left _ _
      have h1 : b.2.2 ≤ 1 := by
        rw [hconf]
        exact max_le (by norm_num) (hsim _ _)
      by_cases hname : b.1 = ""
      · refine ⟨{ intent := Intent.sql_query,
                  confidence := 1/10,
                  metadata := .semanticMeta b.2.1 "embeddings" },
          ?_, by norm_num, by norm_num⟩
        simp only [semanticClassifyInternal, hE, hempty, if_true, and_true,
          if_false, and_false]
        rw [hb]
        simp [hname]
      · refine ⟨{ intent := (intentOfString b.1).getD Intent.sql_query,
                  confidence := b.2.2,
                  metadata := .semanticMeta b.2.1 "embeddings" },
          ?_, h0, h1⟩
        simp only [semanticClassifyInternal, hE, hempty, if_true, and_true,
          if_false, and_false]
        rw [hb]
        simp [hname]
  | false =>
    rcases hscan : simpleScan c (pyStrip text) with ⟨nameOpt, ex, conf⟩
    have hbnd := simpleScan_bounds c (pyStrip text)
    rw [hscan] at hbnd
    rcases nameOpt with _ | name
    · refine ⟨{ intent := Intent.sql_query,
                confidence := 1/10,
                metadata := .semanticMeta ex "simple" },
        ?_, by norm_num, by norm_num⟩
      simp only [semanticClassifyInternal, hE]
      rw [hscan]
      simp
    · by_cases hname : name = ""
      · refine ⟨{ intent := Intent.sql_query,
                  confidence := 1/10,
                  metadata := .semanticMeta ex "simple" },
          ?_, by norm_num, by norm_num⟩
        simp only [semanticClassifyInternal, hE]
        rw [hscan]
        simp [hname]
      · refine ⟨{ intent := (intentOfString name).getD Intent.sql_query,
                  confidence := conf,
                  metadata := .semanticMeta ex "simple" },
          ?_, hbnd.1, hbnd.2⟩
        simp only [semanticClassifyInternal, hE]
        rw [hscan]
        simp [hname]


theorem intent_mem_five (i : Intent) :
    i ∈ [Intent.greeting, Intent.sql_query, Intent.show_sql,
      Intent.export_csv, Intent.unknown] := by
  cases i <;> simp

/-- C3: for every input string (empty and whitespace-only included), the
public classify of the regex classifier over literal patterns and of the
semantic classifier (raw cosine similarities at most 1) returns normally
with an intent in the closed five-value set and a confidence in [0,1]. -/
theorem claim3_classify_total_bounded
    (ps : List (String × String)) (thr : ℚ) (sc : SemanticClassifier)
    (text : String)
    (hps : ∀ p ∈ ps, p.2 ≠ "")
    (hsim : ∀ t e, sc.rawSim t e ≤ 1) :
    (∃ r, RegexClassifier.classify
        { confidenceThreshold := thr,
          patterns := ps,
          compiledPatterns := ps.map (fun p => (p.1, litPat p.2)) } text
        = .ok r
      ∧ r.intent ∈ [Intent.greeting, Intent.sql_query, Intent.show_sql,
          Intent.export_csv, Intent.unknown]
      ∧ 0 ≤ r.confidence ∧ r.confidence ≤ 1)
    ∧ (∃ r, SemanticClassifier.classify sc text = .ok r
      ∧ r.intent ∈ [Intent.greeting, Intent.sql_query, Intent.show_sql,
          Intent.export_csv, Intent.unknown]
      ∧ 0 ≤ r.confidence ∧ r.confidence ≤ 1) := by
  constructor
  · obtain ⟨r0, h0, hl0, hu0⟩ :=
      regexClassifyInternal_litPat_bounds ps hps text
    obtain ⟨r, hr, hl, hu⟩ := baseClassify_bounds thr Intent.unknown
      (regexClassifyInternal (ps.map (fun p => (p.1, litPat p.2))) ps) text
      ⟨r0, h0, hl0, hu0⟩
    exact ⟨r, hr, intent_mem_five r.intent, hl, hu⟩
  · obtain ⟨r0, h0, hl0, hu0⟩ := semanticClassifyInternal_bounds sc text hsim
    obtain ⟨r, hr, hl, hu⟩ := baseClassify_bounds sc.confidenceThreshold
      Intent.unknown (fun t => semanticClassifyInternal sc t) text
      ⟨r0, h0, hl0, hu0⟩
    exact ⟨r, hr, intent_mem_five r.intent, hl, hu⟩

/-- Witness for C3 at the spec-modelled patterns and examples on input
hello. -/
theorem claim3_witness :
    (∀ p ∈ specPatterns, p.2 ≠ "")
    ∧ (∀ t e, simpleSemanticClassifier.rawSim t e ≤ 1)
    ∧ ((∃ r, RegexClassifier.classify
        { confidenceThreshold := 8/10,
          patterns := specPatterns,
          compiledPatterns := specPatterns.map
            (fun p => (p.1, litPat p.2)) } "hello"
        = .ok r
      ∧ r.intent ∈ [Intent.greeting, Intent.sql_query, Intent.show_sql,
          Intent.export_csv, Intent.unknown]
      ∧ 0 ≤ r.confidence ∧ r.confidence ≤ 1)
    ∧ (∃ r, SemanticClassifier.classify simpleSemanticClassifier "hello"
        = .ok r
      ∧ r.intent ∈ [Intent.greeting, Intent.sql_query, Intent.show_sql,
          Intent.export_csv, Intent.unknown]
      ∧ 0 ≤ r.confidence ∧ r.confidence ≤ 1)) :=
  ⟨by decide, fun t e => by norm_num [simpleSemanticClassifier],
   claim3_classify_total_bounded specPatterns (8/10)
     simpleSemanticClassifier "hello" (by decide)
     (fun t e => by norm_num [simpleSemanticClassifier])⟩


theorem cacheGet_empty (now : Nat) (key : String) :
    cacheGet now key emptyCache = (none, emptyCache) := rfl

theorem getConversationContext_empty (now : Nat) (sid : String) :
    getConversationContext now sid MAX_CHAT_HISTORY_CNT emptyCache =
      ("", emptyCache) := rfl

theorem addMessage_empty_entry (now : Nat) (sid role content : String) :
    ((addMessage MAX_CHAT_HISTORY_CNT now sid role content emptyCache).2)
      (histKey sid) =
    some { value := .vhist [mkMessage role content now],
           createdAt := now, expiresAt := some (now + CACHE_TTL) } := by
  have h := addMessage_histEntry MAX_CHAT_HISTORY_CNT now sid role content
    emptyCache
  rw [readHist_of_none now sid emptyCache rfl] at h
  simpa using h

theorem addMessage_second_entry (now : Nat) (sid r1 t1 r2 t2 : String) :
    ((addMessage MAX_CHAT_HISTORY_CNT now sid r2 t2
        ((addMessage MAX_CHAT_HISTORY_CNT now sid r1 t1 emptyCache).2)).2)
      (histKey sid) =
    some { value := .vhist [mkMessage r1 t1 now, mkMessage r2 t2 now],
           createdAt := now, expiresAt := some (now + CACHE_TTL) } := by
  have h := addMessage_histEntry MAX_CHAT_HISTORY_CNT now sid r2 t2
    ((addMessage MAX_CHAT_HISTORY_CNT now sid r1 t1 emptyCache).2)
  rw [readHist_of_entry now sid _ [mkMessage r1 t1 now] now
    (addMessage_empty_entry now sid r1 t1) (Nat.le_add_right _ _)] at h
  simpa using h

theorem agentAsk_empty_ok (now : Nat)
    (proc : String → String → Except PyExn NL2SQLResponse)
    (ans : NL2SQLResponse) (q sid : String)
    (hp : ∀ a b, proc a b = .ok ans) :
    agentAsk now proc q (some sid) emptyCache =
      ([("question", .pstr q),
        ("answer", .pstr ans.interpretedAnswer),
        ("session_id", .pstr sid),
        ("success", .pbool true),
        ("structured_response", .pdict
          [("interpreted_answer", .pstr ans.interpretedAnswer),
           ("sql_query", .pstr ans.sqlQuery),
           ("exec_result", .prows ans.execResult)])],
       (addMessage MAX_CHAT_HISTORY_CNT now sid "assistant"
          ans.interpretedAnswer
          (addMessage MAX_CHAT_HISTORY_CNT now sid "user" q
            emptyCache).2).2) := by
  simp only [agentAsk, getConversationContext_empty]
  rw [hp]

theorem agentAsk_empty_err (now : Nat)
    (proc : String → String → Except PyExn NL2SQLResponse)
    (e : PyExn) (q sid : String)
    (hp : ∀ a b, proc a b = .error e) :
    agentAsk now proc q (some sid) emptyCache =
      ([("question", .pstr q),
        ("answer", .pstr ("Error processing question: " ++ pyExnStr e)),
        ("session_id", .pstr sid),
        ("success", .pbool false)],
       (addMessage MAX_CHAT_HISTORY_CNT now sid "system"
          ("Error processing question: " ++ pyExnStr e)
          (addMessage MAX_CHAT_HISTORY_CNT now sid "user" q
            emptyCache).2).2) := by
  simp only [agentAsk, getConversationContext_empty]
  rw [hp]


theorem runSqlBranch_okDict (env : ServiceEnv) (c : Cache) (sid : String)
    (res : NL2SQLServiceResponse) (q : String) (ans : NL2SQLResponse) :
    runSqlBranch env c sid res
      [("question", .pstr q),
       ("answer", .pstr ans.interpretedAnswer),
       ("session_id", .pstr sid),
       ("success", .pbool true),
       ("structured_response", .pdict
         [("interpreted_answer", .pstr ans.interpretedAnswer),
          ("sql_query", .pstr ans.sqlQuery),
          ("exec_result", .prows ans.execResult)])] =
      (.error (.keyError "metadata"), c) := rfl

theorem runSqlBranch_errDict (env : ServiceEnv) (c : Cache) (sid : String)
    (res : NL2SQLServiceResponse) (q msg : String) :
    runSqlBranch env c sid res
      [("question", .pstr q),
       ("answer", .pstr msg),
       ("session_id", .pstr sid),
       ("success", .pbool false)] =
      (.error (.keyError "structured_response"), c) := rfl

/-- C4 (amended): conversation turns are recorded only on the SQL_QUERY
branch, by the agent's ask.  A run that classifies to GREETING returns
the canned reply with the cache untouched, recording nothing, and a run
that classifies to UNKNOWN likewise returns with the cache untouched; a
run that classifies to SHOW_SQL or EXPORT_CSV never calls ask — from an
empty store it returns with the store still empty, recording no turns; a
run that classifies to SQL_QUERY and starts from an empty store leaves
exactly a user turn plus an assistant turn when the processing step
succeeds, and a user turn plus a system-role turn holding the error text
when it fails (so failures are recorded as system entries, but only on
this branch). -/
theorem claim4_amended (env : ServiceEnv) (c : Cache)
    (q sid : String) (ans : NL2SQLResponse) (e : PyExn)
    (hsid : sid ≠ "") :
    (serviceIntent env q = .ok Intent.greeting →
      run env c q sid =
        (.ok { question := q, answer := "Hello, how can I help you?",
               sessionId := some sid, success := true, data := .rstr "",
               type := .text }, c))
    ∧ (serviceIntent env q = .ok Intent.sql_query →
        (∀ a b, env.proc a b = .ok ans) →
        storedHist (run env emptyCache q sid).2 sid =
          [mkMessage "user" q env.now,
           mkMessage "assistant" ans.interpretedAnswer env.now])
    ∧ (serviceIntent env q = .ok Intent.sql_query →
        (∀ a b, env.proc a b = .error e) →
        storedHist (run env emptyCache q sid).2 sid =
          [mkMessage "user" q env.now,
           mkMessage "system" ("Error processing question: " ++ pyExnStr e)
             env.now])
    ∧ (serviceIntent env q = .ok Intent.show_sql →
        run env emptyCache q sid =
          (.ok { question := q,
                 answer := "No SQL query was excuted for your previous request.",
                 sessionId := some sid, success := false, data := .rstr "",
                 type := .text }, emptyCache))
    ∧ (serviceIntent env q = .ok Intent.export_csv →
        run env emptyCache q sid =
          (.ok { question := q,
                 answer := "No SQL query was excuted for your previous request.",
                 sessionId := some sid, success := false, data := .rstr "",
                 type := .text }, emptyCache))
    ∧ (serviceIntent env q = .ok Intent.unknown →
        run env c q sid =
          (.ok { question := q, answer := "", sessionId := some sid,
                 success := false, data := .rstr "",
                 type := .text }, c)) := by
  refine ⟨?_, ?_, ?_, ?_, ?_, ?_⟩
  · intro hintent
    simp only [run, if_neg hsid, hintent]
    simp
  · intro hintent hp
    simp only [run, if_neg hsid, hintent]
    rw [if_neg (by decide : ¬(Intent.sql_query = Intent.greeting))]
    simp only [if_true]
    rw [agentAsk_empty_ok env.now env.proc ans q sid hp]
    dsimp only
    rw [runSqlBranch_okDict]
    simp only [storedHist, addMessage_second_entry]
  · intro hintent hp
    simp only [run, if_neg hsid, hintent]
    rw [if_neg (by decide : ¬(Intent.sql_query = Intent.greeting))]
    simp only [if_true]
    rw [agentAsk_empty_err env.now env.proc e q sid hp]
    dsimp only
    rw [runSqlBranch_errDict]
    simp only [storedHist, addMessage_second_entry]
  · intro hintent
    simp only [run, if_neg hsid, hintent]
    rw [if_neg (by decide : ¬(Intent.show_sql = Intent.greeting)),
      if_neg (by decide : ¬(Intent.show_sql = Intent.sql_query))]
    simp only [if_true]
    rfl
  · intro hintent
    simp only [run, if_neg hsid, hintent]
    rw [if_neg (by decide : ¬(Intent.export_csv = Intent.greeting)),
      if_neg (by decide : ¬(Intent.export_csv = Intent.sql_query)),
      if_neg (by decide : ¬(Intent.export_csv = Intent.show_sql))]
    simp only [if_true]
    rfl
  · intro hintent
    simp only [run, if_neg hsid, hintent]
    rw [if_neg (by decide : ¬(Intent.unknown = Intent.greeting)),
      if_neg (by decide : ¬(Intent.unknown = Intent.sql_query)),
      if_neg (by decide : ¬(Intent.unknown = Intent.show_sql)),
      if_neg (by decide : ¬(Intent.unknown = Intent.export_csv))]


/-- Witness for C4: session s1, the always-succeeding environment and the
input hello (which classifies to GREETING). -/
theorem claim4_witness :
    ("s1" : String) ≠ ""
    ∧ ((serviceIntent okEnv "hello" = .ok Intent.greeting →
         run okEnv emptyCache "hello" "s1" =
           (.ok { question := "hello",
                  answer := "Hello, how can I help you?",
                  sessionId := some "s1", success := true,
                  data := .rstr "", type := .text }, emptyCache))
      ∧ (serviceIntent okEnv "hello" = .ok Intent.sql_query →
          (∀ a b, okEnv.proc a b = .ok okAnswer) →
          storedHist (run okEnv emptyCache "hello" "s1").2 "s1" =
            [mkMessage "user" "hello" okEnv.now,
             mkMessage "assistant" okAnswer.interpretedAnswer okEnv.now])
      ∧ (serviceIntent okEnv "hello" = .ok Intent.sql_query →
          (∀ a b, okEnv.proc a b = .error (.generic "boom")) →
          storedHist (run okEnv emptyCache "hello" "s1").2 "s1" =
            [mkMessage "user" "hello" okEnv.now,
             mkMessage "system"
               ("Error processing question: "
                 ++ pyExnStr (.generic "boom")) okEnv.now])
      ∧ (serviceIntent okEnv "hello" = .ok Intent.show_sql →
          run okEnv emptyCache "hello" "s1" =
            (.ok { question := "hello",
                   answer := "No SQL query was excuted for your previous request.",
                   sessionId := some "s1", success := false,
                   data := .rstr "", type := .text }, emptyCache))
      ∧ (serviceIntent okEnv "hello" = .ok Intent.export_csv →
          run okEnv emptyCache "hello" "s1" =
            (.ok { question := "hello",
                   answer := "No SQL query was excuted for your previous request.",
                   sessionId := some "s1", success := false,
                   data := .rstr "", type := .text }, emptyCache))
      ∧ (serviceIntent okEnv "hello" = .ok Intent.unknown →
          run okEnv emptyCache "hello" "s1" =
            (.ok { question := "hello", answer := "",
                   sessionId := some "s1", success := false,
                   data := .rstr "", type := .text }, emptyCache))) :=
  ⟨by decide, claim4_amended okEnv emptyCache "hello" "s1" okAnswer
    (.generic "boom") (by decide)⟩

end Bot
